import Mathlib

/-!
Verification of the howblox-http service against its specification.

Each definition below is a shallow embedding of one Python function or data
type of the repository (`src/`), translated statement by statement: machine
integers are `Nat`/`Int`, fallible Python code returns `Except PyError`,
stateful methods become explicit state-passing functions, and network or
database effects become explicit input parameters (the value the call would
have returned) or output components (the value the call would have written).
-/

namespace Howblox

/-- Exceptions a translated Python fragment can raise.  `messageError`
stands for the repository's user-facing `Message` exception. -/
inductive PyError where
  | typeError
  | keyError
  | valueError
  | indexError
  | attributeError
  | zeroDivisionError
  | validationError
  | notImplementedError
  | messageError
  deriving DecidableEq

/-! ## Progress bar (`src/resources/ui/progress_bar.py`) -/

/-- The unfilled glyph, `LINE = "▬"`. -/
def LINE : String := "▬"

/-- One filled segment: the glyph wrapped in a markdown hyperlink, as in the
f-string `f"[{LINE}](https://howblox.net)"`. -/
def filledGlyph : String := "[" ++ LINE ++ "](https://howblox.net)"

/-- `ProgressBar` model: `progress`, `total`, `length` (default 10). -/
structure ProgressBar where
  progress : Nat
  total : Nat
  length : Nat := 10
  deriving DecidableEq

/-- The number of filled segments computed by `ProgressBar.__str__`:
`percent_done = int((self.progress / self.total)) * self.length`.
Python raises `ZeroDivisionError` when `total = 0`; for `progress ≤ total`
the truncation `int(progress / total)` is exactly `progress / total` in
natural division. -/
def ProgressBar.filledSegments (bar : ProgressBar) : Except PyError Nat :=
  if bar.total = 0 then .error .zeroDivisionError
  else .ok (bar.progress / bar.total * bar.length)

/-- `ProgressBar.__str__`: `percent_done` copies of the hyperlinked glyph
followed by `length - percent_done` copies of the bare glyph. -/
def ProgressBar.render (bar : ProgressBar) : Except PyError String :=
  if bar.total = 0 then .error .zeroDivisionError
  else
    let percentDone := bar.progress / bar.total * bar.length
    .ok (String.join (List.replicate percentDone filledGlyph) ++
         String.join (List.replicate (bar.length - percentDone) LINE))

/-! ## HTTP authentication decorator (`src/web/decorators.py`) -/

/-- Outcome of one request through the `authenticate` wrapper: either the
fixed 401 `UNAUTHORISED_RESPONSE`, or the wrapped handler runs. -/
inductive AuthOutcome where
  | unauthorized
  | handlerInvoked
  deriving DecidableEq

/-- The `authenticate()` decorator's wrapper.  `secret` models
`CONFIG.HTTP_BOT_AUTH` (`none` = unset; Python also treats the empty string
as falsy, i.e. unconfigured).  `hasRequestArg` models whether a
`Request`-typed argument was found among the handler arguments, and
`authHeader` the value of the `Authorization` header (`none` = absent). -/
def authenticate (secret : Option String) (hasRequestArg : Bool)
    (authHeader : Option String) : AuthOutcome :=
  match secret with
  | none => .unauthorized
  | some sec =>
    if sec = "" then .unauthorized
    else if hasRequestArg = false then .unauthorized
    else if authHeader = some sec then .handlerInvoked
    else .unauthorized

/-! ## Custom-ID encoding (`src/resources/ui/components.py`)

Python's serialization primitives, translated at the character-list level so
that the round-trip properties are provable: `str.split(":")`,
`":".join(...)`, `str(int)` and the decimal-string-to-`int` coercion pydantic
applies to an `int`-annotated field. -/

/-- Worker of `pySplit`: scan the characters, cutting at each separator. -/
def pySplitAux (sep : Char) : List Char → List Char → List String
  | [], acc => [String.mk acc.reverse]
  | c :: rest, acc =>
    if c = sep then String.mk acc.reverse :: pySplitAux sep rest []
    else pySplitAux sep rest (c :: acc)

/-- Python's `s.split(sep)` for a one-character separator: always returns at
least one (possibly empty) segment, and empty segments between adjacent
separators are kept. -/
def pySplit (sep : Char) (s : String) : List String :=
  pySplitAux sep s.data []

/-- Python's `sep.join(parts)` for a one-character separator. -/
def pyJoin (sep : Char) : List String → String
  | [] => ""
  | [x] => x
  | x :: y :: rest => x ++ String.singleton sep ++ pyJoin sep (y :: rest)

/-- Decimal digits of `n`, most significant first, empty for `0`.  Written
with explicit fuel (the first argument) so that it evaluates by kernel
reduction; `natDigits` supplies sufficient fuel. -/
def natDigitsGo : Nat → Nat → List Char
  | 0, _ => []
  | fuel + 1, n =>
    if n = 0 then []
    else natDigitsGo fuel (n / 10) ++ [Nat.digitChar (n % 10)]

/-- Decimal digits of `n`, most significant first, empty for `0`. -/
def natDigits (n : Nat) : List Char :=
  natDigitsGo n n

/-- Python's `str(n)` for a natural number. -/
def pyStrOfNat (n : Nat) : String :=
  if n = 0 then "0" else String.mk (natDigits n)

/-- Python's `str(i)` for an `int`: an optional minus sign followed by the
decimal digits. -/
def pyStrOfInt : Int → String
  | .ofNat n => pyStrOfNat n
  | .negSucc n => "-" ++ pyStrOfNat (n + 1)

/-- The numeric value of a decimal digit character, `none` otherwise. -/
def digitVal? (c : Char) : Option Nat :=
  if '0' ≤ c ∧ c ≤ '9' then some (c.toNat - 48) else none

/-- Left-to-right accumulation of decimal digits; any non-digit fails. -/
def parseNatAux : List Char → Nat → Option Nat
  | [], acc => some acc
  | c :: rest, acc =>
    match digitVal? c with
    | some d => parseNatAux rest (acc * 10 + d)
    | none => none

/-- The decimal-string-to-`int` coercion pydantic applies to an
`int`-annotated field, for the plain decimal forms `str(int)` produces: an
optional leading minus sign followed by at least one digit. -/
def pyParseInt (s : String) : Option Int :=
  match s.data with
  | [] => none
  | c :: rest =>
    if c = '-' then
      if rest.isEmpty then none
      else (parseNatAux rest 0).map (fun n => -(n : Int))
    else (parseNatAux (c :: rest) 0).map Int.ofNat

/-! ## Premium resolution (`src/resources/premium.py`, `src/resources/constants.py`,
`src/resources/user_permissions.py`) -/

/-- `UserTypes` enum of `user_permissions.py`. -/
inductive UserTypes where
  | HOWBLOX_BLACKLISTED
  | HOWBLOX_USER
  | HOWBLOX_STAFF
  | HOWBLOX_DEVELOPER
  deriving DecidableEq

/-- `get_user_type`: look the user up in the `special_users` map, defaulting
to `HOWBLOX_USER`.  The map itself is populated at startup; it is passed here
explicitly as an association list. -/
def get_user_type (special_users : List (Nat × UserTypes)) (user_id : Nat) : UserTypes :=
  match special_users.find? (fun p => p.1 = user_id) with
  | some p => p.2
  | none => .HOWBLOX_USER

/-- `PremiumTier` enum. -/
inductive PremiumTier where
  | BASIC
  | PRO
  deriving DecidableEq

/-- `PremiumSource` enum. -/
inductive PremiumSource where
  | DISCORD_BILLING
  | CHARGEBEE
  | PREMIUM_OVERRIDE
  deriving DecidableEq

/-- `PremiumFeatures` enum. -/
inductive PremiumFeatures where
  | PREMIUM
  | PRO
  deriving DecidableEq

/-- The fields of `PremiumStatus` that premium resolution writes (the
payment-source URL and subscription length are presentational and omitted). -/
structure PremiumStatus where
  active : Bool := false
  payment_source : Option PremiumSource := none
  tier : Option PremiumTier := none
  features : List PremiumFeatures := []
  discord_id : Option Nat := none
  deriving DecidableEq

/-- `SKU_TIERS` table of `constants.py`. -/
def SKU_TIERS : List (Nat × String) :=
  [(1022662272188952627, "basic/month"),
   (1156326821785260102, "pro/month"),
   (1106314705867378928, "basic/month")]

/-- Dictionary lookup `SKU_TIERS.get(sku)`. -/
def skuLookup (sku_id : Nat) : Option String :=
  (SKU_TIERS.find? (fun p => p.1 = sku_id)).map (fun p => p.2)

/-- Python's substring test `pat in s`. -/
def strContains (s pat : String) : Bool :=
  decide (pat.data <:+: s.data)

/-- `get_user_facing_tier_term`: `tier, term = tier_name.split("/")` raises
`ValueError` unless the split yields exactly two parts; `"basic"` and
`"pro"` map to the tiers, anything else leaves the tier `None`. -/
def get_user_facing_tier_term (tier_name : String) :
    Except PyError (Option PremiumTier × String) :=
  match pySplit '/' tier_name with
  | [tier, term] =>
    .ok (if tier = "basic" then some .BASIC
         else if tier = "pro" then some .PRO
         else none, term)
  | _ => .error .valueError

/-- The stored guild premium document (`premium` sub-document of the guild's
database record).  Absent boolean keys read as falsy via `.get`, so they are
plain `Bool`s; `type` is read with `premium_data["type"]` and may be absent. -/
structure GuildPremiumDoc where
  active : Bool := false
  externalDiscord : Bool := false
  patreon : Bool := false
  type : Option String := none
  deriving DecidableEq

/-- `get_premium_features(premium_data, tier)`.  When `tier != "pro"` the
code evaluates `premium_data.get("patreon")`, which raises `AttributeError`
when the document is `None`. -/
def get_premium_features (premium_data : Option GuildPremiumDoc) (tier : String) :
    Except PyError (List PremiumFeatures) :=
  if tier = "pro" then .ok [.PREMIUM, .PRO]
  else
    match premium_data with
    | none => .error .attributeError
    | some d =>
      .ok (if d.patreon ∨ strContains tier "pro" then [.PREMIUM, .PRO] else [.PREMIUM])

/-- A native purchase entitlement carried on an interaction. -/
structure Entitlement where
  sku_id : Nat
  deriving DecidableEq

/-- The parts of a command interaction premium resolution reads. -/
structure Interaction where
  user_id : Nat
  entitlements : List Entitlement
  deriving DecidableEq

/-- The `PremiumStatus` built for a matching platform-billing tier string
(shared by the entitlement branch and both cache branches of
`_check_guild_premium`). -/
def discord_billing_status (guild_id : Nat) (premium_data : Option GuildPremiumDoc)
    (tier_name : String) : Except PyError PremiumStatus := do
  let tt ← get_user_facing_tier_term tier_name
  let features ← get_premium_features premium_data tier_name
  .ok { active := true, payment_source := some .DISCORD_BILLING,
        tier := tt.1, features := features, discord_id := some guild_id }

/-- The "last resort" database branch of `_check_guild_premium`: the stored
document is honored only when it exists, is active, and is not
externally-managed by platform billing (`externalDiscord`); otherwise the
inactive default status is returned. -/
def db_fallback (guild_id : Nat) (premium_data : Option GuildPremiumDoc) :
    Except PyError PremiumStatus :=
  match premium_data with
  | some d =>
    if d.active ∧ ¬ d.externalDiscord then
      match d.type with
      | none => .error .keyError
      | some tier_name => do
        let tt ← get_user_facing_tier_term tier_name
        let features ← get_premium_features (some d) tier_name
        .ok { active := true, payment_source := some .CHARGEBEE,
              tier := tt.1, features := features, discord_id := some guild_id }
    else .ok {}
  | none => .ok {}

/-- TTL, in seconds, of the `premium:discord_billing:{guild_id}` cache key. -/
def PREMIUM_CACHE_TTL_SECONDS : Nat := 100

/-- `_check_guild_premium`.  Effects are explicit: `cached_tier` is what
`redis.get` returns for the billing cache key (`none` = miss/expired; the
stored values are tier strings or the literal `"false"`), and
`live_entitlements` is what `fetch_entitlements` would return on a cache
miss.  The second component of the result is the value written back to the
cache (with `PREMIUM_CACHE_TTL_SECONDS` expiry), `none` when nothing is
written.  A cached falsy value (`none` or the empty string) triggers the
live fetch; the first fetched entitlement's SKU is looked up with
`SKU_TIERS[...]`, raising `KeyError` when unknown. -/
def check_guild_premium (guild_id : Nat) (interaction : Option Interaction)
    (premium_data : Option GuildPremiumDoc) (cached_tier : Option String)
    (live_entitlements : List Entitlement) :
    Except PyError (PremiumStatus × Option String) :=
  match interaction with
  | some itx =>
    match itx.entitlements.find? (fun e => (skuLookup e.sku_id).isSome) with
    | some e =>
      match skuLookup e.sku_id with
      | some tier_name =>
        (discord_billing_status guild_id premium_data tier_name).map (fun s => (s, none))
      | none => (db_fallback guild_id premium_data).map (fun s => (s, none))
    | none => (db_fallback guild_id premium_data).map (fun s => (s, none))
  | none =>
    if cached_tier = none ∨ cached_tier = some "" then
      match live_entitlements with
      | [] => (db_fallback guild_id premium_data).map (fun s => (s, some "false"))
      | e :: _ =>
        match skuLookup e.sku_id with
        | none => .error .keyError
        | some tier_name =>
          (discord_billing_status guild_id premium_data tier_name).map
            (fun s => (s, some tier_name))
    else
      match cached_tier with
      | some ct =>
        if ct = "false" then (db_fallback guild_id premium_data).map (fun s => (s, none))
        else (discord_billing_status guild_id premium_data ct).map (fun s => (s, none))
      | none => (db_fallback guild_id premium_data).map (fun s => (s, none))

/-- The always-active staff/developer override status. -/
def override_status (guild_id : Option Nat) : PremiumStatus :=
  { active := true, payment_source := some .PREMIUM_OVERRIDE,
    tier := some .PRO, features := [.PREMIUM, .PRO], discord_id := guild_id }

/-- `get_premium_status`: staff/developer override first (only with an
interaction), then the guild path, and `NotImplementedError` for the
user-premium path. -/
def get_premium_status (special_users : List (Nat × UserTypes))
    (guild_id : Option Nat) (interaction : Option Interaction)
    (premium_data : Option GuildPremiumDoc) (cached_tier : Option String)
    (live_entitlements : List Entitlement) :
    Except PyError (PremiumStatus × Option String) :=
  match interaction with
  | some itx =>
    if get_user_type special_users itx.user_id = .HOWBLOX_STAFF ∨
       get_user_type special_users itx.user_id = .HOWBLOX_DEVELOPER then
      .ok (override_status guild_id, none)
    else
      match guild_id with
      | some g => check_guild_premium g interaction premium_data cached_tier live_entitlements
      | none => .error .notImplementedError
  | none =>
    match guild_id with
    | some g => check_guild_premium g none premium_data cached_tier live_entitlements
    | none => .error .notImplementedError

/-! ## Bind creation (`src/resources/binds.py`, limits from
`src/resources/constants.py`) -/

/-- `LIMITS["BINDS"]["FREE"]`. -/
def LIMITS_BINDS_FREE : Nat := 60

/-- `LIMITS["BINDS"]["PREMIUM"]`. -/
def LIMITS_BINDS_PREMIUM : Nat := 200

/-- `LIMITS["BINDS"]["MAX"]`. -/
def LIMITS_BINDS_MAX : Nat := 500

/-- Bind criteria: the discriminating payload of a bind (`type`, target `id`,
and the group-specific `dynamicRoles` flag set by `create_bind` for dynamic
group binds).  A target id of `0` models a falsy (absent) id, matching the
`if bind_id:` truthiness test. -/
structure BindCriteria where
  type : String
  id : Nat
  dynamicRoles : Bool := false
  deriving DecidableEq

/-- The external library's `GuildBind` value object, as specified by the
boundary contract (spec §3): roles to add, roles to remove, nickname
template, criteria.  Equality is structural over the full field set and is
what `create_bind` uses to detect duplicates/merge targets. -/
structure GuildBind where
  roles : List String
  removeRoles : List String
  nickname : Option String := none
  criteria : BindCriteria
  deriving DecidableEq

/-- The errors `create_bind` can raise. -/
inductive BindError where
  | maxBindsReached
  | premiumRequired
  | bindConflict
  | notImplemented
  deriving DecidableEq

/-- The merged role list: Python computes
`list(guild_roles & set(existing_binds[0].roles + roles))`.  The element
order of a materialized Python set is unspecified; this model fixes the
deduplicated append order as representative.  Claims are stated about the
underlying set of elements. -/
def mergeRoles (guild_roles : List String) (existing requested : List String) :
    List String :=
  ((existing ++ requested).dedup).filter (fun r => r ∈ guild_roles)

/-- The candidate `GuildBind` that `create_bind` builds from its arguments
(`new_bind` in the source). -/
def mkNewBind (bind_type : String) (bind_id : Nat) (roles : List String)
    (remove_roles : List String) (nickname : Option String)
    (dynamic_roles : Bool) : GuildBind :=
  { roles := roles, removeRoles := remove_roles, nickname := nickname,
    criteria := { type := bind_type, id := bind_id,
                  dynamicRoles := dynamic_roles ∧ bind_type = "group" } }

/-- `create_bind`.  Explicit inputs stand for the awaited effects:
`bind_count` is `count_binds`, `premium` the `get_premium_status` result
consulted by the limit checks, `guild_binds` the stored bind list, and
`guild_roles` the currently-valid guild role ids from `fetch_roles`.  The
`ok` value is the bind list passed to `update_guild_data`; an `error` means
the function raised and nothing was written. -/
def create_bind (bind_count : Nat) (premium : PremiumStatus)
    (guild_binds : List GuildBind) (guild_roles : List String)
    (bind_type : String) (bind_id : Nat) (roles : List String)
    (remove_roles : List String) (nickname : Option String)
    (dynamic_roles : Bool) : Except BindError (List GuildBind) :=
  if dynamic_roles ∧ bind_type ≠ "group" then .error .notImplemented
  else if bind_count ≥ LIMITS_BINDS_FREE ∧ bind_count ≥ LIMITS_BINDS_MAX then
    .error .maxBindsReached
  else if bind_count ≥ LIMITS_BINDS_FREE ∧
      ((bind_count ≥ LIMITS_BINDS_FREE ∧ ¬ premium.active) ∨
       (bind_count ≥ LIMITS_BINDS_PREMIUM ∧ premium.active ∧
        premium.tier ≠ some .PRO)) then
    .error .premiumRequired
  else
    let new_bind : GuildBind :=
      mkNewBind bind_type bind_id roles remove_roles nickname dynamic_roles
    match guild_binds.filter (fun b => b = new_bind) with
    | [] => .ok (guild_binds ++ [new_bind])
    | eb :: rest =>
      if bind_id ≠ 0 then
        if rest ≠ [] then .error .bindConflict
        else
          let step1 : List GuildBind × GuildBind :=
            if roles ≠ [] then
              let eb1 := { eb with roles := mergeRoles guild_roles eb.roles roles }
              (guild_binds.erase eb ++ [eb1], eb1)
            else (guild_binds, eb)
          let step2 : List GuildBind :=
            if remove_roles ≠ [] then
              step1.1.erase step1.2 ++ [{ step1.2 with removeRoles := remove_roles }]
            else step1.1
          .ok step2
      else .error .notImplemented

/-! ## Restriction evaluation (`src/resources/restriction.py`) -/

/-- The body of the restriction-evaluation endpoint's successful response
(`RestrictionResponse`). -/
structure RestrictionResponse where
  unevaluated : List String := []
  is_restricted : Bool := false
  reason : Option String := none
  reason_suffix : Option String := none
  action : Option String := none
  source : Option String := none
  deriving DecidableEq

/-- The mutable fields of a `Restriction` object.  `warnings` defaults to
`None` in the source (its declared list default is never applied), so it is
an `Option`; `_synced` is the private memoization flag. -/
structure RestrictionState where
  guild_id : Nat
  member_id : Nat
  roblox_user : Option Nat := none
  restricted : Bool := false
  reason : Option String := none
  action : Option String := none
  source : Option String := none
  warnings : Option (List String) := none
  unevaluated : List String := []
  reason_suffix : Option String := none
  alts : List Int := []
  banned_discord_id : Option Nat := none
  synced : Bool := false

/-- Environment of `check_alts`: the member's ever-linked Roblox accounts
(`get_accounts`), the reverse lookup of other discord ids that linked each
account (`reverse_lookup`, which already excludes the member's own id), and
guild-member resolution (`fetch_discord_member`, `none` when the looked-up
user is not in the guild). -/
structure AltsEnv where
  accounts : List Nat
  reverse : Nat → List Nat
  member_in_guild : Nat → Option Nat

/-- The discord ids `check_alts` accumulates in `matches`. -/
def altsMatches (env : AltsEnv) : List Nat :=
  env.accounts.flatMap (fun a => (env.reverse a).filterMap env.member_in_guild)

/-- `Restriction.check_alts`.  The matched ids are appended as `int`s; on a
non-empty match list the method assigns `self.source = "disallowAlts"` and
then evaluates `", ".join(matches)` — joining a list of `int`s, which raises
`TypeError` in Python, so the reason assignment, the `alts` assignment, and
the rest of the caller never run.  The restricted flag is not assigned on
any path. -/
def check_alts (s : RestrictionState) (env : AltsEnv) :
    Except PyError Unit × RestrictionState :=
  let matched := altsMatches env
  if matched.isEmpty then (.ok (), { s with alts := matched.map Int.ofNat })
  else (.error .typeError, { s with source := some "disallowAlts" })

/-- Result of `fetch_ban` for one user id. -/
inductive BanLookup where
  | banned
  | notFound
  | forbidden
  deriving DecidableEq

/-- Environment of `check_ban_evading`. -/
structure BanEnv where
  accounts : List Nat
  reverse : Nat → List Nat
  ban_lookup : Nat → BanLookup

/-- The loop of `check_ban_evading` over the reverse-lookup matches: skip
not-found, record the first banned id and flip restricted on, and on a
permission error append a warning (`self.warnings` is `None` at that point,
so `.append` raises `AttributeError`) and stop. -/
def banLoop (lookup : Nat → BanLookup) (s : RestrictionState) :
    List Nat → Except PyError Unit × RestrictionState
  | [] => (.ok (), s)
  | u :: rest =>
    match lookup u with
    | .notFound => banLoop lookup s rest
    | .forbidden =>
      match s.warnings with
      | none => (.error .attributeError, s)
      | some w =>
        let w1 := w ++ ["I don't have permission to check the server bans."]
        (.ok (), { s with warnings := some w1 })
    | .banned =>
      (.ok (), { s with banned_discord_id := some u, restricted := true,
                        source := some "banEvader",
                        reason := some ("User is evading a ban on user " ++
                                        toString u ++ "."),
                        action := some "ban" })

/-- `Restriction.check_ban_evading`. -/
def check_ban_evading (s : RestrictionState) (env : BanEnv) :
    Except PyError Unit × RestrictionState :=
  banLoop env.ban_lookup s (env.accounts.flatMap env.reverse)

/-- Environment of one `sync` call: what `get_user` would resolve (`none` =
`UserNotVerified`, tolerated), the status and body of the POST to the
restriction-evaluation endpoint, and the environments of the deferred local
checks. -/
structure SyncEnv where
  get_user_result : Option Nat
  response_status : Nat
  response_data : RestrictionResponse
  alts_env : AltsEnv
  ban_env : BanEnv

/-- `StatusCodes.OK`. -/
def STATUS_OK : Nat := 200

/-- `Restriction.sync`.  Returns the raised-or-returned outcome, the
post-call object state, and the number of POSTs made to the
restriction-evaluation endpoint during this call.  Memoized: a synced object
returns immediately.  Otherwise the linked account is resolved if missing, the
snapshot is POSTed (one network call), a non-success status raises `Message`
before anything is copied back, and on success the response fields are copied,
deferred checks run, and only then is the synced flag set. -/
def Restriction.sync (s : RestrictionState) (env : SyncEnv) :
    Except PyError Unit × RestrictionState × Nat :=
  if s.synced then (.ok (), s, 0)
  else
    let s1 := match s.roblox_user with
      | none => { s with roblox_user := env.get_user_result }
      | some _ => s
    if env.response_status ≠ STATUS_OK then (.error .messageError, s1, 1)
    else
      let d := env.response_data
      let s2 := { s1 with restricted := d.is_restricted, reason := d.reason,
                          action := d.action, source := d.source,
                          reason_suffix := d.reason_suffix,
                          unevaluated := d.unevaluated }
      if ¬ s2.unevaluated.isEmpty ∧ s2.roblox_user.isSome then
        let r1 := if "disallowAlts" ∈ s2.unevaluated
          then check_alts s2 env.alts_env else (.ok (), s2)
        match r1.1 with
        | .error e => (.error e, r1.2, 1)
        | .ok _ =>
          let r2 := if "disallowBanEvaders" ∈ s2.unevaluated
            then check_ban_evading r1.2 env.ban_env else (.ok (), r1.2)
          match r2.1 with
          | .error e => (.error e, r2.2, 1)
          | .ok _ => (.ok (), { r2.2 with synced := true }, 1)
      else (.ok (), { s2 with synced := true }, 1)

/-! ## Redis message collector (`src/resources/redis.py`) -/

/-- The collector's state for one reply channel: `table` is the channel's
entry in the `_futures` correlation table (the accumulated replies so far,
`none` when no entry exists), and `resolved` is the future's result once
`set_result` has been called. -/
structure CollectorState where
  table : Option (List String) := none
  resolved : Option (List String) := none
  deriving DecidableEq

/-- One iteration of `_listen_for_message` upon receiving `msg` on the
channel: no table entry means the message is ignored; otherwise the message
is appended to the accumulated results and, in single-reply mode or once the
count reaches the node count, the entry is popped and the future resolved. -/
def listener_step (wait_for_all : Bool) (node_count : Nat)
    (st : CollectorState) (msg : String) : CollectorState :=
  match st.table with
  | none => st
  | some results =>
    let results := results ++ [msg]
    if ¬ wait_for_all ∨ results.length = node_count then
      { table := none, resolved := some results }
    else { st with table := some results }

/-- `RedisMessageCollector.get_message` for a fresh channel (no prior entry):
a new table entry with an empty accumulator is created, the listener
processes every reply that arrives before the caller's timeout, and
`asyncio.wait_for` either returns the resolved future or raises
`TimeoutError`.  The entry is popped only by the listener on fulfilment, so
on timeout the table keeps the accumulated replies. -/
def get_message_outcome (wait_for_all : Bool) (node_count : Nat)
    (replies_before_timeout : List String) :
    Except Unit (List String) × CollectorState :=
  let st0 : CollectorState := { table := some [], resolved := none }
  let stF := replies_before_timeout.foldl (listener_step wait_for_all node_count) st0
  match stF.resolved with
  | some r => (.ok r, stF)
  | none => (.error (), stF)

/-! ## Custom-ID types (`src/resources/ui/components.py`) -/

/-- The `type` field's `Literal["command", "prompt", "paginator"]`. -/
inductive CidType where
  | command
  | prompt
  | paginator
  deriving DecidableEq

/-- The serialized form of a `CidType` value (Python `str(field_value)`). -/
def CidType.render : CidType → String
  | .command => "command"
  | .prompt => "prompt"
  | .paginator => "paginator"

/-- Pydantic validation of the `type` literal: only the three declared
strings are accepted. -/
def CidType.parse (s : String) : Option CidType :=
  if s = "command" then some .command
  else if s = "prompt" then some .prompt
  else if s = "paginator" then some .paginator
  else none

/-- `CommandCustomID`: declared field order is `command_name`, `section`,
`subcommand_name`, `type`, `user_id` (the first two inherited from
`BaseCommandCustomID`).  `section` is a Lean keyword, hence the trailing
underscore.  `command_name` is the only field without a default. -/
structure CommandCustomID where
  command_name : String
  section_ : String := ""
  subcommand_name : String := ""
  type : CidType := .command
  user_id : Int := 0
  deriving DecidableEq

/-- `BaseCustomID.__str__` specialized to `CommandCustomID`: every field's
string form in declared order, joined by `:` (no field of this type is ever
`None`, so no segment is blanked by the `None` check). -/
def CommandCustomID.encode (c : CommandCustomID) : String :=
  pyJoin ':' [c.command_name, c.section_, c.subcommand_name,
              c.type.render, pyStrOfInt c.user_id]

/-- `BaseCustomID.from_str` specialized to `CommandCustomID`: split on `:`,
take the first five segments positionally (`parts[index]` raises
`IndexError` when fewer than five exist; later segments are discarded), drop
empty segments so the field defaults apply, and validate the rest —
`command_name` has no default so an empty first segment fails validation,
`type` must parse as one of its literals, and `user_id` must coerce to an
integer. -/
def CommandCustomID.from_str (s : String) : Except PyError CommandCustomID :=
  let parts := pySplit ':' s
  if parts.length < 5 then .error .indexError
  else
    let p0 := parts.getD 0 ""
    let p3 := parts.getD 3 ""
    let p4 := parts.getD 4 ""
    if p0 = "" then .error .validationError
    else
      match (if p3 = "" then some CidType.command else CidType.parse p3),
            (if p4 = "" then some (0 : Int) else pyParseInt p4) with
      | some ty, some uid =>
        .ok { command_name := p0, section_ := parts.getD 1 "",
              subcommand_name := parts.getD 2 "", type := ty, user_id := uid }
      | _, _ => .error .validationError

/-! ## Concrete evaluation inputs -/

/-- A fresh, unsynced `Restriction` for a member of guild 1. -/
def syncDemoState : RestrictionState :=
  { guild_id := 1, member_id := 2 }

/-- A benign environment: member unverified, endpoint answers 200 with the
default (unrestricted, nothing deferred) body. -/
def syncDemoEnv : SyncEnv :=
  { get_user_result := none, response_status := STATUS_OK, response_data := {},
    alts_env := ⟨[], fun _ => [], fun _ => none⟩,
    ban_env := ⟨[], fun _ => [], fun _ => .notFound⟩ }

/-- The same environment with a failing (500) evaluation endpoint. -/
def syncFailEnv : SyncEnv :=
  { syncDemoEnv with response_status := 500 }

/-- An alt-detection environment with one linked account whose reverse lookup
finds one other discord user, user 999, who is a member of the guild. -/
def altsDemoEnv : AltsEnv :=
  { accounts := [1], reverse := fun _ => [999],
    member_in_guild := fun u => if u = 999 then some 999 else none }

/-!
# Theorems

One theorem per claim of the specification audit, preceded by the helper
lemmas its proof needs.
-/

/-- C9 counterexample: a progress bar with `progress = 0 ≤ total = 0` does
not render at all — the fill computation divides by `total` and raises
`ZeroDivisionError`, instead of rendering zero filled and ten unfilled
segments. -/
theorem progress_bar_zero_total_raises :
    ProgressBar.render ⟨0, 0, 10⟩ = .error .zeroDivisionError := rfl

/-- C9 (amended): for every progress bar with `0 ≤ progress ≤ total`,
`0 < total`, and length `L`, the number of filled (hyperlinked) segments is
`⌊progress/total⌋ * L` and the remaining `L - ⌊progress/total⌋ * L` segments
are unfilled; in particular 0 of 10 and 5 of 10 render zero filled segments
and 10 of 10 renders all 10 filled. -/
theorem progress_bar_floor_before_multiply (p t L : Nat) (ht : 0 < t)
    (_hpt : p ≤ t) :
    ProgressBar.filledSegments ⟨p, t, L⟩ = .ok (p / t * L) ∧
    ProgressBar.render ⟨p, t, L⟩ =
      .ok (String.join (List.replicate (p / t * L) filledGlyph) ++
           String.join (List.replicate (L - p / t * L) LINE)) ∧
    ProgressBar.filledSegments ⟨0, 10, 10⟩ = .ok 0 ∧
    ProgressBar.filledSegments ⟨5, 10, 10⟩ = .ok 0 ∧
    ProgressBar.filledSegments ⟨10, 10, 10⟩ = .ok 10 := by
  have ht' : t ≠ 0 := by omega
  refine ⟨?_, ?_, rfl, rfl, rfl⟩ <;>
    simp [ProgressBar.filledSegments, ProgressBar.render, ht']

/-- C9 witness: the amended theorem applied at progress 5 of 10. -/
theorem progress_bar_floor_witness :
    ProgressBar.filledSegments ⟨5, 10, 10⟩ = .ok (5 / 10 * 10) :=
  (progress_bar_floor_before_multiply 5 10 10 (by decide) (by decide)).1

/-- C6: with an unset shared secret every request is rejected regardless of
the header; with a set secret, a missing or mismatched `Authorization`
header is rejected with the fixed unauthorized response; the wrapped handler
is invoked exactly when the header is an exact match (and a `Request`
argument is present). -/
theorem authenticate_exact_match_only (secret : Option String) (hasReq : Bool)
    (hdr : Option String) :
    ((secret = none ∨ secret = some "") →
      authenticate secret hasReq hdr = .unauthorized) ∧
    (∀ sec, secret = some sec → sec ≠ "" → hdr ≠ some sec →
      authenticate secret hasReq hdr = .unauthorized) ∧
    (authenticate secret hasReq hdr = .handlerInvoked →
      ∃ sec, secret = some sec ∧ hdr = some sec ∧ sec ≠ "") ∧
    (∀ sec, secret = some sec → sec ≠ "" → hasReq = true → hdr = some sec →
      authenticate secret hasReq hdr = .handlerInvoked) := by
  unfold authenticate
  rcases secret with _ | sec
  · simp
  · by_cases h0 : sec = "" <;> by_cases h1 : hasReq <;>
      by_cases h2 : hdr = some sec <;> simp_all

/-- C6 witness: the theorem applied with the secret unset. -/
theorem authenticate_fail_closed_witness :
    authenticate none true (some "anything") = .unauthorized :=
  (authenticate_exact_match_only none true (some "anything")).1 (Or.inl rfl)

/-- C2: `create_bind` at or above the absolute maximum of 500 existing binds
raises the max-binds error regardless of premium state; at or above the free
ceiling of 60 with inactive premium, or at or above the premium ceiling of
200 with active premium below the PRO tier, it raises premium-required.  In
each case the function returns an error, so no bind list is written. -/
theorem create_bind_limits (count : Nat) (premium : PremiumStatus)
    (binds : List GuildBind) (groles : List String) (btype : String)
    (bid : Nat) (roles rroles : List String) (nick : Option String)
    (dyn : Bool) (hdyn : dyn = true → btype = "group") :
    (count ≥ LIMITS_BINDS_MAX →
      create_bind count premium binds groles btype bid roles rroles nick dyn =
        .error .maxBindsReached) ∧
    (count ≥ LIMITS_BINDS_FREE → count < LIMITS_BINDS_MAX →
      premium.active = false →
      create_bind count premium binds groles btype bid roles rroles nick dyn =
        .error .premiumRequired) ∧
    (count ≥ LIMITS_BINDS_PREMIUM → count < LIMITS_BINDS_MAX →
      premium.active = true → premium.tier ≠ some .PRO →
      create_bind count premium binds groles btype bid roles rroles nick dyn =
        .error .premiumRequired) := by
  have hg : ¬ (dyn = true ∧ ¬ btype = "group") := by
    rintro ⟨ha, hb⟩; exact hb (hdyn ha)
  simp only [LIMITS_BINDS_FREE, LIMITS_BINDS_MAX, LIMITS_BINDS_PREMIUM]
  refine ⟨fun h => ?_, fun h1 h2 h3 => ?_, fun h1 h2 h3 h4 => ?_⟩ <;>
    unfold create_bind <;>
    simp only [LIMITS_BINDS_FREE, LIMITS_BINDS_MAX, LIMITS_BINDS_PREMIUM] <;>
    rw [if_neg hg]
  · rw [if_pos ⟨by omega, by omega⟩]
  · rw [if_neg (by omega : ¬ (count ≥ 60 ∧ count ≥ 500)),
        if_pos ⟨by omega, Or.inl ⟨by omega, by simp [h3]⟩⟩]
  · rw [if_neg (by omega : ¬ (count ≥ 60 ∧ count ≥ 500)),
        if_pos ⟨by omega, Or.inr ⟨by omega, by simp [h3], h4⟩⟩]

/-- C2 witness: the theorem applied at a guild with 500 existing binds. -/
theorem create_bind_limits_witness :
    create_bind 500 {} [] [] "group" 1 [] [] none false =
      .error .maxBindsReached :=
  (create_bind_limits 500 {} [] [] "group" 1 [] [] none false
    (fun _ => rfl)).1 (by decide)

/-- C3: when `create_bind` finds exactly one structurally-equal existing
bind with a concrete (non-zero) target id, the merged bind's role set is the
union of the existing and requested roles intersected with the valid guild
role ids (stale ids dropped), a supplied remove-roles list replaces the
stored one, and the touched bind is re-appended at the end of the persisted
list; more than one structurally-equal match is a conflict error with no
write. -/
theorem create_bind_merge (count : Nat) (premium : PremiumStatus)
    (binds : List GuildBind) (groles : List String) (btype : String)
    (bid : Nat) (roles rroles : List String) (nick : Option String)
    (dyn : Bool) (eb eb2 : GuildBind) (rest : List GuildBind)
    (hcount : count < LIMITS_BINDS_FREE) (hid : bid ≠ 0)
    (hdyn : dyn = true → btype = "group") :
    (binds.filter (fun b => b = mkNewBind btype bid roles rroles nick dyn) = [eb] →
      roles ≠ [] → rroles = [] →
      create_bind count premium binds groles btype bid roles rroles nick dyn =
        .ok (binds.erase eb ++
             [{ eb with roles := mergeRoles groles eb.roles roles }])) ∧
    (binds.filter (fun b => b = mkNewBind btype bid roles rroles nick dyn) = [eb] →
      roles = [] → rroles ≠ [] →
      create_bind count premium binds groles btype bid roles rroles nick dyn =
        .ok (binds.erase eb ++ [{ eb with removeRoles := rroles }])) ∧
    (binds.filter (fun b => b = mkNewBind btype bid roles rroles nick dyn) =
        eb :: eb2 :: rest →
      create_bind count premium binds groles btype bid roles rroles nick dyn =
        .error .bindConflict) ∧
    (∀ r, r ∈ mergeRoles groles eb.roles roles ↔
      ((r ∈ eb.roles ∨ r ∈ roles) ∧ r ∈ groles)) := by
  have hg : ¬ (dyn = true ∧ ¬ btype = "group") := by
    rintro ⟨ha, hb⟩; exact hb (hdyn ha)
  have hA : ¬ (count ≥ LIMITS_BINDS_FREE ∧ count ≥ LIMITS_BINDS_MAX) := by
    simp only [LIMITS_BINDS_FREE, LIMITS_BINDS_MAX] at *; omega
  have hB : ¬ (count ≥ LIMITS_BINDS_FREE ∧
      ((count ≥ LIMITS_BINDS_FREE ∧ ¬ premium.active) ∨
       (count ≥ LIMITS_BINDS_PREMIUM ∧ premium.active ∧
        premium.tier ≠ some .PRO))) := by
    simp only [LIMITS_BINDS_FREE, LIMITS_BINDS_PREMIUM] at *
    rintro ⟨h, -⟩; omega
  refine ⟨fun hm hr hrr => ?_, fun hm hr hrr => ?_, fun hm => ?_, fun r => ?_⟩
  · simp only [create_bind]
    rw [if_neg hg, if_neg hA, if_neg hB, hm]
    simp [hid, hr, hrr]
  · simp only [create_bind]
    rw [if_neg hg, if_neg hA, if_neg hB, hm]
    simp [hid, hr, hrr]
  · simp only [create_bind]
    rw [if_neg hg, if_neg hA, if_neg hB, hm]
    simp [hid]
  · simp [mergeRoles, List.mem_filter, List.mem_dedup, List.mem_append,
          and_comm, or_comm]

/-- C3 witness: the merge conjunct applied to a guild whose single stored
bind equals the candidate. -/
theorem create_bind_merge_witness :
    create_bind 0 {} [mkNewBind "group" 123 ["A"] [] none false] ["A"]
        "group" 123 ["A"] [] none false =
      .ok ([mkNewBind "group" 123 ["A"] [] none false].erase
             (mkNewBind "group" 123 ["A"] [] none false) ++
           [{ mkNewBind "group" 123 ["A"] [] none false with
                roles := mergeRoles ["A"]
                  (mkNewBind "group" 123 ["A"] [] none false).roles ["A"] }]) :=
  (create_bind_merge 0 {} [mkNewBind "group" 123 ["A"] [] none false] ["A"]
      "group" 123 ["A"] [] none false
      (mkNewBind "group" 123 ["A"] [] none false)
      (mkNewBind "group" 123 ["A"] [] none false) []
      (by decide) (by decide) (fun _ => rfl)).1 (by decide) (by decide) rfl

/-- Every SKU the tier table knows maps to one of its two tier strings. -/
lemma skuLookup_mem (sku : Nat) (t : String) (h : skuLookup sku = some t) :
    t = "basic/month" ∨ t = "pro/month" := by
  by_cases h1 : (1022662272188952627 : Nat) = sku <;>
    by_cases h2 : (1156326821785260102 : Nat) = sku <;>
    by_cases h3 : (1106314705867378928 : Nat) = sku <;>
    simp [skuLookup, SKU_TIERS, List.find?, h1, h2, h3] at h <;>
    simp [h]

/-- For either tier string of the table and a present stored document, the
platform-billing status builder succeeds with an active DISCORD_BILLING
status. -/
lemma discord_billing_status_ok (g : Nat) (d : GuildPremiumDoc) (t : String)
    (ht : t = "basic/month" ∨ t = "pro/month") :
    ∃ st, discord_billing_status g (some d) t = .ok st ∧
      st.active = true ∧ st.payment_source = some .DISCORD_BILLING := by
  rcases ht with h | h <;> subst h <;> exact ⟨_, rfl, rfl, rfl⟩

/-- C1: guild premium resolution consults its sources in fixed precedence.
With an interaction from a staff or developer user the result is the
always-active PRO-tier override regardless of entitlements, cache, or
stored document.  Otherwise a matching native purchase entitlement yields an
active platform-billing result even when a separately-active stored premium
document exists.  Without an interaction the 100-second cached
platform-billing check is used (a miss triggers the live entitlement
fetch and caches its answer).  The stored document is honored (CHARGEBEE
source) only when it is active and not externally managed by platform
billing, and otherwise the result is the inactive default status. -/
theorem premium_resolution_precedence (su : List (Nat × UserTypes))
    (gid : Option Nat) (g uid : Nat) (ents : List Entitlement)
    (doc : Option GuildPremiumDoc) (cached : Option String)
    (live : List Entitlement) :
    -- (1) staff/developer override, first match
    (get_user_type su uid = .HOWBLOX_STAFF ∨
       get_user_type su uid = .HOWBLOX_DEVELOPER →
      get_premium_status su gid (some ⟨uid, ents⟩) doc cached live =
        .ok (override_status gid, none) ∧
      (override_status gid).active = true ∧
      (override_status gid).tier = some .PRO ∧
      (override_status gid).payment_source = some .PREMIUM_OVERRIDE) ∧
    -- (2) a matching entitlement beats the stored document
    (∀ e t d, get_user_type su uid ≠ .HOWBLOX_STAFF →
      get_user_type su uid ≠ .HOWBLOX_DEVELOPER →
      ents.find? (fun e => (skuLookup e.sku_id).isSome) = some e →
      skuLookup e.sku_id = some t → doc = some d →
      ∃ st, get_premium_status su (some g) (some ⟨uid, ents⟩) doc cached live =
          .ok (st, none) ∧
        st.active = true ∧ st.payment_source = some .DISCORD_BILLING) ∧
    -- (3) without an interaction, the 100-second cache drives the check
    PREMIUM_CACHE_TTL_SECONDS = 100 ∧
    (∀ ct, cached = some ct → ct ≠ "false" → ct ≠ "" →
      get_premium_status su (some g) none doc cached live =
        (discord_billing_status g doc ct).map (fun st => (st, none))) ∧
    (cached = none → live = [] →
      get_premium_status su (some g) none doc cached live =
        (db_fallback g doc).map (fun st => (st, some "false"))) ∧
    (∀ e tl t, cached = none → live = e :: tl → skuLookup e.sku_id = some t →
      get_premium_status su (some g) none doc cached live =
        (discord_billing_status g doc t).map (fun st => (st, some t))) ∧
    (cached = some "false" →
      get_premium_status su (some g) none doc cached live =
        (db_fallback g doc).map (fun st => (st, none))) ∧
    -- (4) the stored document is honored only if active and internal
    (∀ st, db_fallback g doc = .ok st →
      st.payment_source = some .CHARGEBEE →
      ∃ d, doc = some d ∧ d.active = true ∧ d.externalDiscord = false) ∧
    -- (5) otherwise inactive
    (∀ d, doc = some d → d.active = false ∨ d.externalDiscord = true →
      db_fallback g doc = .ok {}) ∧
    (doc = none → db_fallback g doc = .ok {}) := by
  refine ⟨fun h => ?_, fun e t d hs1 hs2 hfind hsku hdoc => ?_, rfl,
          fun ct hc hf he => ?_, fun hc hl => ?_,
          fun e tl t hc hl hsku => ?_, fun hc => ?_,
          fun st hok hsrc => ?_, fun d hdoc hcase => ?_, fun hdoc => ?_⟩
  · constructor
    · simp only [get_premium_status]
      rw [if_pos (by simpa using h)]
    · exact ⟨rfl, rfl, rfl⟩
  · subst hdoc
    obtain ⟨st, hst, ha, hp⟩ :=
      discord_billing_status_ok g d t (skuLookup_mem e.sku_id t hsku)
    refine ⟨st, ?_, ha, hp⟩
    simp only [get_premium_status]
    rw [if_neg (by simpa using ⟨hs1, hs2⟩)]
    simp only [check_guild_premium, hfind, hsku, hst, Except.map]
  · subst hc
    simp only [get_premium_status, check_guild_premium]
    rw [if_neg (by simp [hf, he])]
    simp [hf]
  · subst hc; subst hl
    simp [get_premium_status, check_guild_premium]
  · subst hc; subst hl
    simp only [get_premium_status, check_guild_premium]
    rw [if_pos (by simp)]
    simp [hsku]
  · subst hc
    simp only [get_premium_status, check_guild_premium]
    rw [if_neg (by simp)]
    simp
  · rcases doc with _ | d
    · simp only [db_fallback] at hok
      cases hok; simp at hsrc
    · simp only [db_fallback] at hok
      by_cases hcond : d.active = true ∧ ¬ d.externalDiscord = true
      · exact ⟨d, rfl, hcond.1, by simpa using hcond.2⟩
      · rw [if_neg hcond] at hok
        cases hok; simp at hsrc
  · subst hdoc
    simp only [db_fallback]
    rw [if_neg (by rcases hcase with h | h <;> simp [h])]
  · subst hdoc; rfl

/-- C1 witness: the precedence theorem's override conjunct applied to a
staff member of the `special_users` map. -/
theorem premium_resolution_witness :
    get_premium_status [(5, UserTypes.HOWBLOX_STAFF)] (some 9)
        (some ⟨5, []⟩) none none [] =
      .ok (override_status (some 9), none) :=
  ((premium_resolution_precedence [(5, .HOWBLOX_STAFF)] (some 9) 9 5 [] none
      none []).1 (Or.inl (by decide))).1

/-- C5: at a failing input — one linked account whose reverse lookup finds
one other discord account that resolves to guild member 999 — `check_alts`
raises `TypeError` (the reason f-string joins the integer match list), and
the restricted flag, reason, and alts list are all left untouched, contrary
to the specified behavior. -/
theorem check_alts_type_error :
    (check_alts syncDemoState altsDemoEnv).1 = .error .typeError ∧
    (check_alts syncDemoState altsDemoEnv).2.restricted = false ∧
    (check_alts syncDemoState altsDemoEnv).2.reason = none ∧
    (check_alts syncDemoState altsDemoEnv).2.alts = [] ∧
    (check_alts syncDemoState altsDemoEnv).2.source = some "disallowAlts" ∧
    altsMatches altsDemoEnv = [999] :=
  ⟨rfl, rfl, rfl, rfl, rfl, rfl⟩

/-- Every `sync` call either returns normally with the memoization flag set,
or raises. -/
lemma sync_cases (s : RestrictionState) (env : SyncEnv) :
    ((Restriction.sync s env).1 = .ok () ∧
      ((Restriction.sync s env).2.1).synced = true) ∨
    (∃ e, (Restriction.sync s env).1 = .error e) := by
  simp only [Restriction.sync]
  (repeat' split) <;> simp_all

/-- A `sync` call that returns normally leaves the memoization flag set. -/
lemma sync_ok_synced (s : RestrictionState) (env : SyncEnv)
    (h : (Restriction.sync s env).1 = .ok ()) :
    ((Restriction.sync s env).2.1).synced = true := by
  rcases sync_cases s env with ⟨-, hy⟩ | ⟨e, he⟩
  · exact hy
  · rw [he] at h; cases h

/-- A `sync` call on an unsynced object always POSTs exactly once. -/
lemma sync_count_one (s : RestrictionState) (env : SyncEnv)
    (h : s.synced = false) :
    (Restriction.sync s env).2.2 = 1 := by
  simp only [Restriction.sync, h]
  (repeat' split) <;> simp_all

/-- C7: once a `sync` call has completed successfully, a second call is a
no-op — it makes zero network calls to the restriction-evaluation endpoint,
returns normally, and leaves the object exactly as it was. -/
theorem sync_idempotent (s : RestrictionState) (e1 e2 : SyncEnv)
    (h : (Restriction.sync s e1).1 = .ok ()) :
    Restriction.sync (Restriction.sync s e1).2.1 e2 =
      (.ok (), (Restriction.sync s e1).2.1, 0) := by
  have hs := sync_ok_synced s e1 h
  set s2 := (Restriction.sync s e1).2.1 with hs2
  unfold Restriction.sync
  rw [if_pos hs]

/-- C7 witness: the idempotence theorem applied to a fresh restriction in
the benign environment, in which the first call succeeds. -/
theorem sync_idempotent_witness :
    Restriction.sync (Restriction.sync syncDemoState syncDemoEnv).2.1
        syncDemoEnv =
      (.ok (), (Restriction.sync syncDemoState syncDemoEnv).2.1, 0) :=
  sync_idempotent syncDemoState syncDemoEnv syncDemoEnv rfl

/-- C10: a non-success status from the restriction-evaluation endpoint makes
`sync` raise before copying anything back — the call makes its one POST,
every published field keeps its prior value, the synced flag stays false,
and a later `sync` call POSTs again. -/
theorem sync_failure_preserves_state (s : RestrictionState) (env : SyncEnv)
    (hs : s.synced = false) (hst : env.response_status ≠ STATUS_OK) :
    (Restriction.sync s env).1 = .error .messageError ∧
    (Restriction.sync s env).2.2 = 1 ∧
    (Restriction.sync s env).2.1.restricted = s.restricted ∧
    (Restriction.sync s env).2.1.reason = s.reason ∧
    (Restriction.sync s env).2.1.action = s.action ∧
    (Restriction.sync s env).2.1.source = s.source ∧
    (Restriction.sync s env).2.1.reason_suffix = s.reason_suffix ∧
    (Restriction.sync s env).2.1.unevaluated = s.unevaluated ∧
    (Restriction.sync s env).2.1.synced = false ∧
    (∀ env2, (Restriction.sync (Restriction.sync s env).2.1 env2).2.2 = 1) := by
  have hbody : Restriction.sync s env =
      (.error .messageError,
       (match s.roblox_user with
        | none => { s with roblox_user := env.get_user_result }
        | some _ => s), 1) := by
    simp only [Restriction.sync, hs]
    rw [if_neg (by simp), if_pos hst]
  have hcount : ∀ env2,
      (Restriction.sync (Restriction.sync s env).2.1 env2).2.2 = 1 := by
    intro env2
    apply sync_count_one
    rw [hbody]
    rcases hru : s.roblox_user with _ | u <;> simp [hru, hs]
  refine ⟨?_, ?_, ?_, ?_, ?_, ?_, ?_, ?_, ?_, hcount⟩ <;> rw [hbody] <;>
    rcases hru : s.roblox_user with _ | u <;> simp [hru, hs]

/-- C10 witness: the failure theorem applied to a fresh restriction against
a 500-status endpoint. -/
theorem sync_failure_witness :
    (Restriction.sync syncDemoState syncFailEnv).1 = .error .messageError :=
  (sync_failure_preserves_state syncDemoState syncFailEnv rfl
    (by decide)).1

/-- While fewer replies than the node count have arrived in wait-for-all
mode, the listener keeps accumulating in the table and never resolves the
future. -/
lemma collector_fold_pending (n : Nat) (msgs : List String) :
    ∀ acc : List String, acc.length + msgs.length < n →
    msgs.foldl (listener_step true n) { table := some acc, resolved := none } =
      { table := some (acc ++ msgs), resolved := none } := by
  induction msgs with
  | nil => intro acc h; simp
  | cons m rest ih =>
    intro acc h
    simp only [List.length_cons] at h
    have hstep : listener_step true n { table := some acc, resolved := none } m =
        { table := some (acc ++ [m]), resolved := none } := by
      simp only [listener_step]
      rw [if_neg (by simp only [List.length_append, List.length_cons,
            List.length_nil, not_true, false_or]; omega)]
    rw [List.foldl_cons, hstep,
        ih (acc ++ [m]) (by simp only [List.length_append, List.length_cons,
          List.length_nil]; omega)]
    simp

/-- C8: a fresh relay request whose channel receives no reply before the
caller's timeout raises the timeout signal; in wait-for-all mode with an
expected count of `n` and only `n - 1` replies arriving, the timeout is
also raised — the accumulated replies are never returned through the normal
path and remain in the correlation table entry. -/
theorem relay_timeout (wfa : Bool) (n : Nat) (replies : List String)
    (hn : n = replies.length + 1) :
    get_message_outcome wfa n [] =
      (.error (), { table := some [], resolved := none }) ∧
    get_message_outcome true n replies =
      (.error (), { table := some replies, resolved := none }) := by
  constructor
  · rfl
  · simp only [get_message_outcome]
    rw [collector_fold_pending n replies []
      (by simp only [List.length_nil, Nat.zero_add]; omega)]
    simp

/-- C8 witness: the timeout theorem with 1 of 2 expected replies. -/
theorem relay_timeout_witness :
    get_message_outcome true 2 ["a"] =
      (.error (), { table := some ["a"], resolved := none }) :=
  (relay_timeout true 2 ["a"] rfl).2

/-- Splitting a separator-free character list yields a single segment. -/
lemma pySplitAux_no_sep (sep : Char) :
    ∀ (l acc : List Char), sep ∉ l →
    pySplitAux sep l acc = [String.mk (acc.reverse ++ l)] := by
  intro l
  induction l with
  | nil => intro acc _; simp [pySplitAux]
  | cons c rest ih =>
    intro acc h
    have hc : c ≠ sep := fun he => h (he ▸ List.mem_cons_self c rest)
    simp only [pySplitAux]
    rw [if_neg hc, ih (c :: acc) (fun hm => h (List.mem_cons_of_mem _ hm))]
    simp

/-- Splitting past the first separator peels off one segment. -/
lemma pySplitAux_append (sep : Char) :
    ∀ (l acc rest : List Char), sep ∉ l →
    pySplitAux sep (l ++ sep :: rest) acc =
      String.mk (acc.reverse ++ l) :: pySplitAux sep rest [] := by
  intro l
  induction l with
  | nil => intro acc rest _; simp [pySplitAux]
  | cons c l2 ih =>
    intro acc rest h
    have hc : c ≠ sep := fun he => h (he ▸ List.mem_cons_self c l2)
    simp only [List.cons_append, pySplitAux, List.append_eq]
    rw [if_neg hc, ih (c :: acc) rest (fun hm => h (List.mem_cons_of_mem _ hm))]
    simp

/-- Splitting undoes joining whenever no segment contains the separator. -/
lemma pySplit_pyJoin (sep : Char) :
    ∀ xs : List String, xs ≠ [] → (∀ x ∈ xs, sep ∉ x.data) →
    pySplit sep (pyJoin sep xs) = xs := by
  intro xs
  induction xs with
  | nil => intro h _; exact absurd rfl h
  | cons x ys ih =>
    intro _ hmem
    cases ys with
    | nil =>
      simp only [pyJoin, pySplit]
      rw [pySplitAux_no_sep sep x.data [] (hmem x (by simp))]
      simp
    | cons y zs =>
      simp only [pyJoin, pySplit]
      have hdata : (x ++ String.singleton sep ++ pyJoin sep (y :: zs)).data =
          x.data ++ sep :: (pyJoin sep (y :: zs)).data := by
        simp [String.data_append, String.singleton]
      rw [hdata, pySplitAux_append sep x.data [] _ (hmem x (by simp))]
      have hys := ih (by simp) (fun z hz => hmem z (by simp [hz]))
      simp only [pySplit] at hys
      rw [hys]
      simp

/-- The fueled digit extractor is fuel-independent once the fuel covers the
argument. -/
lemma natDigitsGo_eq (n : Nat) : ∀ (f1 f2 : Nat), n ≤ f1 → n ≤ f2 →
    natDigitsGo f1 n = natDigitsGo f2 n := by
  induction n using Nat.strong_induction_on with
  | _ n ih =>
    intro f1 f2 h1 h2
    match f1, f2 with
    | 0, 0 => rfl
    | 0, f2 + 1 =>
      have hz : n = 0 := Nat.le_zero.mp h1
      subst hz; simp [natDigitsGo]
    | f1 + 1, 0 =>
      have hz : n = 0 := Nat.le_zero.mp h2
      subst hz; simp [natDigitsGo]
    | f1 + 1, f2 + 1 =>
      by_cases hn : n = 0
      · subst hn; simp [natDigitsGo]
      · simp only [natDigitsGo]
        rw [if_neg hn, if_neg hn]
        have hlt : n / 10 < n := by omega
        rw [ih (n / 10) hlt f1 (n / 10) (by omega) (by omega),
            ih (n / 10) hlt f2 (n / 10) (by omega) (by omega)]

/-- Unfolding equation of `natDigits` for a non-zero argument. -/
lemma natDigits_eq (n : Nat) (hn : n ≠ 0) :
    natDigits n = natDigits (n / 10) ++ [Nat.digitChar (n % 10)] := by
  match n with
  | m + 1 =>
    show natDigitsGo (m + 1) (m + 1) = _
    simp only [natDigitsGo]
    rw [if_neg hn]
    rw [natDigitsGo_eq ((m + 1) / 10) m ((m + 1) / 10) (by omega) (by omega)]
    rfl

/-- Out of hexadecimal range, `Nat.digitChar` is the star placeholder. -/
lemma digitChar_eq_star (d : Nat) (h : ¬ d < 16) : Nat.digitChar d = '*' := by
  unfold Nat.digitChar
  iterate 16 rw [if_neg (by omega)]

/-- `Nat.digitChar` never yields a colon. -/
lemma digitChar_ne_colon (d : Nat) : Nat.digitChar d ≠ ':' := by
  by_cases h : d < 16
  · interval_cases d <;> decide
  · rw [digitChar_eq_star d h]; decide

/-- `Nat.digitChar` never yields a minus sign. -/
lemma digitChar_ne_dash (d : Nat) : Nat.digitChar d ≠ '-' := by
  by_cases h : d < 16
  · interval_cases d <;> decide
  · rw [digitChar_eq_star d h]; decide

/-- Every character of `natDigits` is a digit character. -/
lemma natDigits_mem (n : Nat) : ∀ c ∈ natDigits n, ∃ d, c = Nat.digitChar d := by
  induction n using Nat.strong_induction_on with
  | _ n ih =>
    by_cases hn : n = 0
    · subst hn; intro c hc; simp [natDigits, natDigitsGo] at hc
    · rw [natDigits_eq n hn]
      intro c hc
      rcases List.mem_append.mp hc with h | h
      · exact ih (n / 10) (by omega) c h
      · simp only [List.mem_singleton] at h
        exact ⟨n % 10, h⟩

/-- Every character of a serialized natural number is a digit character. -/
lemma pyStrOfNat_mem (n : Nat) :
    ∀ c ∈ (pyStrOfNat n).data, ∃ d, c = Nat.digitChar d := by
  by_cases hn : n = 0
  · subst hn
    intro c hc
    simp only [pyStrOfNat, if_pos rfl] at hc
    exact ⟨0, by simpa using hc⟩
  · simp only [pyStrOfNat, if_neg hn]
    exact natDigits_mem n

/-- A serialized integer never contains a colon. -/
lemma pyStrOfInt_no_colon (i : Int) : ':' ∉ (pyStrOfInt i).data := by
  match i with
  | .ofNat n =>
    intro hc
    obtain ⟨d, hd⟩ := pyStrOfNat_mem n ':' hc
    exact digitChar_ne_colon d hd.symm
  | .negSucc n =>
    intro hc
    rw [show pyStrOfInt (.negSucc n) = "-" ++ pyStrOfNat (n + 1) from rfl,
        String.data_append] at hc
    rcases List.mem_append.mp hc with h | h
    · simp at h
    · obtain ⟨d, hd⟩ := pyStrOfNat_mem (n + 1) ':' h
      exact digitChar_ne_colon d hd.symm

/-- `natDigits` of a non-zero number is non-empty. -/
lemma natDigits_ne_nil (n : Nat) (hn : n ≠ 0) : natDigits n ≠ [] := by
  rw [natDigits_eq n hn]; simp

/-- A serialized integer is never the empty string. -/
lemma pyStrOfInt_ne_empty (i : Int) : pyStrOfInt i ≠ "" := by
  intro h
  have hd := congrArg String.data h
  match i with
  | .ofNat n =>
    by_cases hn : n = 0
    · subst hn; simp [pyStrOfInt, pyStrOfNat] at hd
    · simp only [pyStrOfInt, pyStrOfNat, if_neg hn] at hd
      exact natDigits_ne_nil n hn (by simpa using hd)
  | .negSucc n =>
    rw [show pyStrOfInt (.negSucc n) = "-" ++ pyStrOfNat (n + 1) from rfl,
        String.data_append] at hd
    simp at hd

/-- `digitVal?` inverts `Nat.digitChar` on digits. -/
lemma digitVal?_digitChar (d : Nat) (h : d < 10) :
    digitVal? (Nat.digitChar d) = some d := by
  interval_cases d <;> decide

/-- Appending one character to the digit accumulator. -/
lemma parseNatAux_append : ∀ (l : List Char) (c : Char) (acc : Nat),
    parseNatAux (l ++ [c]) acc =
      match parseNatAux l acc, digitVal? c with
      | some m, some d => some (m * 10 + d)
      | _, _ => none := by
  intro l
  induction l with
  | nil =>
    intro c acc
    simp only [List.nil_append, parseNatAux]
    cases digitVal? c <;> rfl
  | cons c2 l2 ih =>
    intro c acc
    simp only [List.cons_append, parseNatAux]
    cases hd : digitVal? c2 with
    | some d => exact ih c (acc * 10 + d)
    | none => rfl

/-- Parsing the digits of `n` starting from `acc` shifts `acc` past them. -/
lemma parseNatAux_natDigits : ∀ (n : Nat), n ≠ 0 → ∀ acc,
    parseNatAux (natDigits n) acc =
      some (acc * 10 ^ (natDigits n).length + n) := by
  intro n
  induction n using Nat.strong_induction_on with
  | _ n ih =>
    intro hn acc
    rw [natDigits_eq n hn, parseNatAux_append]
    by_cases h10 : n / 10 = 0
    · rw [h10]
      have hzero : natDigits 0 = [] := rfl
      rw [hzero]
      simp only [parseNatAux, digitVal?_digitChar (n % 10) (by omega)]
      have hmod : n % 10 = n := by omega
      simp [hmod, pow_succ]
    · rw [ih (n / 10) (by omega) h10 acc,
          digitVal?_digitChar (n % 10) (by omega)]
      simp only [List.length_append, List.length_cons, List.length_nil,
                 pow_succ, pow_zero]
      congr 1
      have hdm : 10 * (n / 10) + n % 10 = n := Nat.div_add_mod n 10
      set K := (10 : Nat) ^ (natDigits (n / 10)).length with hK
      calc (acc * K + n / 10) * 10 + n % 10
          = acc * (K * (0 + 1 * 10)) + (10 * (n / 10) + n % 10) := by ring
        _ = acc * (K * (0 + 1 * 10)) + n := by rw [hdm]

/-- Parsing a serialized integer returns the integer. -/
lemma pyParseInt_pyStrOfInt (i : Int) : pyParseInt (pyStrOfInt i) = some i := by
  match i with
  | .ofNat n =>
    by_cases hn : n = 0
    · subst hn; decide
    · show pyParseInt (pyStrOfNat n) = some (Int.ofNat n)
      have hdata : (pyStrOfNat n).data = natDigits n := by
        simp [pyStrOfNat, hn]
      obtain ⟨c, l, hcl⟩ : ∃ c l, natDigits n = c :: l := by
        rcases h : natDigits n with _ | ⟨c, l⟩
        · exact absurd h (natDigits_ne_nil n hn)
        · exact ⟨c, l, rfl⟩
      obtain ⟨d, hd⟩ := natDigits_mem n c (hcl ▸ List.mem_cons_self c l)
      simp only [pyParseInt, hdata, hcl]
      rw [if_neg (hd ▸ digitChar_ne_dash d)]
      rw [← hcl, parseNatAux_natDigits n hn 0]
      simp
  | .negSucc n =>
    have hdata : (pyStrOfInt (.negSucc n)).data = '-' :: natDigits (n + 1) := by
      rw [show pyStrOfInt (.negSucc n) = "-" ++ pyStrOfNat (n + 1) from rfl,
          String.data_append]
      simp [pyStrOfNat]
    simp only [pyParseInt, hdata, if_true]
    rw [if_neg (by simpa using natDigits_ne_nil (n + 1) (by omega)),
        parseNatAux_natDigits (n + 1) (by omega) 0]
    simp [Int.negSucc_eq]

/-- `CidType` validation inverts its serialization. -/
lemma CidType.parse_render (t : CidType) : CidType.parse t.render = some t := by
  cases t <;> decide

/-- The serialized `CidType` never contains a colon. -/
lemma CidType.render_no_colon (t : CidType) : ':' ∉ t.render.data := by
  cases t <;> decide

/-- The serialized `CidType` is never empty. -/
lemma CidType.render_ne_empty (t : CidType) : t.render ≠ "" := by
  cases t <;> decide

/-- C4 counterexample: a field value containing the separator breaks the
round trip — with `section = "a:b"` the encoded string has six segments, the
positional decode reads `"b"` into `subcommand_name` and `"link"` into the
`type` literal, and validation fails instead of returning the original
value. -/
theorem custom_id_roundtrip_fails_on_colon :
    CommandCustomID.from_str
        (CommandCustomID.encode ⟨"verify", "a:b", "link", .command, 123456⟩) =
      .error .validationError ∧
    CommandCustomID.encode ⟨"verify", "a:b", "link", .command, 123456⟩ =
      "verify:a:b:link:command:123456" :=
  ⟨rfl, rfl⟩

/-- C4 (amended): decoding the encoded string yields the original value for
every `CommandCustomID` whose string fields contain no `':'` and whose
defaultless `command_name` is non-empty — fields serialize in declared order
joined by `':'` with absent values as empty segments and are re-hydrated
positionally; in particular the command id
`{command_name := "verify", section := "", subcommand_name := "link",
type := command, user_id := 123456}` serializes to
`"verify::link:command:123456"` and parses back to an equal value. -/
theorem custom_id_roundtrip (c : CommandCustomID)
    (h0 : c.command_name ≠ "")
    (h1 : ':' ∉ c.command_name.data)
    (h2 : ':' ∉ c.section_.data)
    (h3 : ':' ∉ c.subcommand_name.data) :
    CommandCustomID.from_str (CommandCustomID.encode c) = .ok c ∧
    CommandCustomID.encode ⟨"verify", "", "link", .command, 123456⟩ =
      "verify::link:command:123456" ∧
    CommandCustomID.from_str "verify::link:command:123456" =
      .ok ⟨"verify", "", "link", .command, 123456⟩ := by
  refine ⟨?_, rfl, rfl⟩
  have hsplit : pySplit ':' (CommandCustomID.encode c) =
      [c.command_name, c.section_, c.subcommand_name, c.type.render,
       pyStrOfInt c.user_id] := by
    apply pySplit_pyJoin
    · simp
    · intro x hx
      simp only [List.mem_cons, List.not_mem_nil, or_false] at hx
      rcases hx with h | h | h | h | h <;> subst h
      exacts [h1, h2, h3, CidType.render_no_colon c.type,
              pyStrOfInt_no_colon c.user_id]
  simp only [CommandCustomID.from_str, hsplit, List.length_cons,
             List.length_nil, List.getD, List.get?, Option.getD_some]
  rw [if_neg (by omega : ¬ (0 + 1 + 1 + 1 + 1 + 1 < 5))]
  rw [if_neg h0]
  rw [if_neg (CidType.render_ne_empty c.type)]
  rw [if_neg (pyStrOfInt_ne_empty c.user_id)]
  simp only [CidType.parse_render, pyParseInt_pyStrOfInt]

/-- C4 witness: the amended round trip applied to the verify command id. -/
theorem custom_id_roundtrip_witness :
    CommandCustomID.from_str
        (CommandCustomID.encode ⟨"verify", "", "link", .command, 123456⟩) =
      .ok ⟨"verify", "", "link", .command, 123456⟩ :=
  (custom_id_roundtrip ⟨"verify", "", "link", .command, 123456⟩ (by decide)
    (by decide) (by decide) (by decide)).1

end Howblox
